import Mathlib

/-!
Shallow embedding of the consensus validation core of a Bitcoin Cash full
node (package blockchain, file validate.go), together with proofs that
settle the frozen claims about its natural-language specification.

Machine integers are modelled as Nat and Int with explicit wrap-around
where Go overflow semantics matter (wrap64 for int64, wrap32 for int32).
Byte strings are lists of Nat below 256.  External collaborators (wire
serialization, txid hashing, the UTXO store, the script interpreter, the
merkle builder, the difficulty calculator) are represented by data fields
and oracle functions, exactly at the interface the source calls them.
-/

namespace Bchd

/-- Go int64 two-complement wrap-around of an integer. -/
def wrap64 (x : Int) : Int :=
  (x + 9223372036854775808) % 18446744073709551616 - 9223372036854775808

/-- Go int32 two-complement wrap-around of an integer. -/
def wrap32 (x : Int) : Int :=
  (x + 2147483648) % 4294967296 - 2147483648

/-- Go conversion of an unsigned 64-bit value (as Nat) to int32:
keep the low 32 bits and reinterpret as a signed 32-bit integer. -/
def toInt32 (n : Nat) : Int :=
  ((n + 2147483648) % 4294967296 : Nat) - 2147483648

/-- Little-endian interpretation of a byte list as an unsigned integer,
as binary.LittleEndian.Uint64 does on an 8-byte buffer. -/
def leNat : List Nat → Nat
  | [] => 0
  | b :: rest => b + 256 * leNat rest

/-! Constants of blockchain/validate.go, with the values from the source. -/

def SatoshiPerBitcoin : Int := 100000000

/-- bchutil.MaxSatoshi: 21e6 bitcoin in satoshi. -/
def MaxSatoshi : Int := 21000000 * SatoshiPerBitcoin

/-- baseSubsidy = 50 * bchutil.SatoshiPerBitcoin. -/
def baseSubsidy : Int := 50 * SatoshiPerBitcoin

def MinCoinbaseScriptLen : Nat := 2

def MaxCoinbaseScriptLen : Nat := 100

def LegacyMaxBlockSize : Nat := 1000000

/-- MaxTransactionSize = oneMegabyte. -/
def MaxTransactionSize : Nat := 1000000

def MagneticAnomalyMinTransactionSize : Nat := 100

def MinTransactionSize : Nat := 65

def BlockMaxBytesMaxSigChecksRatio : Nat := 141

/-- txscript.LockTimeThreshold. -/
def LockTimeThreshold : Nat := 500000000

/-- math.MaxUint32. -/
def maxUint32 : Nat := 4294967295

/-- Script opcode OP_0. -/
def OP_0 : Nat := 0

/-- Script opcode OP_1. -/
def OP_1 : Nat := 81

/-- Script opcode OP_16. -/
def OP_16 : Nat := 96

/-- Hashes (chainhash.Hash) are modelled as natural numbers; two hashes are
equal exactly when the numbers are, and Hash.Compare is the numeric order. -/
def zeroHash : Nat := 0

/-- One of the two BIP30-violating blocks, height 91842. -/
def block91842Hash : Nat :=
  0x00000000000a4d0a398161ffc163c503763b1f4360639393e0e4c8e300e0caec

/-- One of the two BIP30-violating blocks, height 91880. -/
def block91880Hash : Nat :=
  0x00000000000743f190a18c5577a3c2d2a1f610ae9601ac046a38084ccb7cd721

/-! The closed set of rule error codes raised by validate.go (ruleError
calls).  Comparison is on the code; description strings are diagnostic
only and are not modelled. -/

inductive RuleErrorCode where
  | ErrNoTxInputs
  | ErrNoTxOutputs
  | ErrTxTooBig
  | ErrTxTooSmall
  | ErrBadTxOutValue
  | ErrDuplicateTxInputs
  | ErrBadCoinbaseScriptLen
  | ErrBadTxInput
  | ErrUnexpectedDifficulty
  | ErrHighHash
  | ErrInvalidTime
  | ErrTimeTooNew
  | ErrTimeTooOld
  | ErrNoTransactions
  | ErrFirstTxNotCoinbase
  | ErrMultipleCoinbases
  | ErrInvalidTxOrder
  | ErrBadMerkleRoot
  | ErrDuplicateTx
  | ErrBlockTooBig
  | ErrBlockTooSmall
  | ErrUnfinalizedTx
  | ErrMissingCoinbaseHeight
  | ErrBadCoinbaseHeight
  | ErrBadCheckpoint
  | ErrForkTooOld
  | ErrBlockVersionTooOld
  | ErrOverwriteTx
  | ErrMissingTxOut
  | ErrSpentTxOut
  | ErrImmatureSpend
  | ErrSpendTooHigh
  | ErrBadFees
  | ErrBadCoinbaseValue
  | ErrPrevBlockNotBest
deriving DecidableEq, Repr

/-! Data model (wire.OutPoint, wire.TxIn, wire.TxOut, wire.MsgTx,
bchutil.Tx).  A bchutil.Tx carries its wire transaction together with the
externally computed txid (double SHA256 of the serialization) and the
serialized size (wire encoding); both are out-of-scope collaborators and
are therefore carried as data. -/

structure OutPoint where
  hash : Nat
  index : Nat
deriving DecidableEq, Repr

structure TxIn where
  previousOutPoint : OutPoint
  signatureScript : List Nat
  sequence : Nat
deriving DecidableEq, Repr

structure TxOut where
  value : Int
deriving DecidableEq, Repr

structure MsgTx where
  txIn : List TxIn
  txOut : List TxOut
  lockTime : Nat
deriving DecidableEq, Repr

structure Tx where
  msgTx : MsgTx
  hash : Nat
  serializeSize : Nat
deriving DecidableEq, Repr

/-- blockchain.UtxoEntry: the fields the validation core reads. -/
structure UtxoEntry where
  amount : Int
  blockHeight : Int
  isCoinBase : Bool
  isSpent : Bool
deriving DecidableEq, Repr

/-- blockchain.SequenceLock. -/
structure SequenceLock where
  seconds : Int
  blockHeight : Int
deriving DecidableEq, Repr

/-- A block node: height, hash, header timestamp (unix seconds) and the
median-time-past of its parent (node.parent.CalcPastMedianTime().Unix(),
an external chain-index computation carried as data). -/
structure BlockNode where
  height : Int
  hash : Nat
  timestamp : Int
  parentMTP : Int
deriving DecidableEq, Repr

/-- A block as checkConnectBlock reads it: the header version and the
transaction list. -/
structure Block where
  headerVersion : Int
  transactions : List Tx
deriving DecidableEq, Repr

/-- chaincfg.Params: the fields validate.go reads. -/
structure ChainParams where
  genesisHash : Nat
  uahfForkHeight : Int
  daaForkHeight : Int
  magneticAnomalyForkHeight : Int
  greatWallForkHeight : Int
  gravitonForkHeight : Int
  phononForkHeight : Int
  upgrade9ForkHeight : Int
  cosmicInflationActivationTime : Int
  upgrade11ActivationTime : Int
  bip0034Height : Int
  bip0065Height : Int
  bip0066Height : Int
  bip16ActivationTime : Int
  subsidyReductionInterval : Int
  coinbaseMaturity : Int
deriving DecidableEq, Repr

/-- The BlockChain fields checkConnectBlock reads: the chain parameters,
the configured excessive block size and the current ABLA controller block
size limit (b.ablaState.getBlockSizeLimit()). -/
structure BlockChainState where
  chainParams : ChainParams
  excessiveBlockSize : Nat
  ablaBlockSizeLimit : Nat
deriving DecidableEq, Repr

/-- A UTXO viewpoint or store, at the lookup interface the core uses. -/
def UtxoView : Type := OutPoint → Option UtxoEntry

/-! Transaction predicates. -/

/-- isNullOutpoint from validate.go. -/
def isNullOutpoint (outpoint : OutPoint) : Bool :=
  outpoint.index == maxUint32 && outpoint.hash == zeroHash

/-- IsCoinBaseTx: exactly one input whose previous outpoint is null. -/
def IsCoinBaseTx (msgTx : MsgTx) : Bool :=
  match msgTx.txIn with
  | [txIn] => isNullOutpoint txIn.previousOutPoint
  | _ => false

/-- IsCoinBase on a util transaction. -/
def IsCoinBase (tx : Tx) : Bool :=
  IsCoinBaseTx tx.msgTx

/-- SequenceLockActive from validate.go. -/
def SequenceLockActive (sequenceLock : SequenceLock) (blockHeight : Int)
    (medianTimePast : Int) : Bool :=
  if sequenceLock.seconds ≥ medianTimePast ∨ sequenceLock.blockHeight ≥ blockHeight then
    false
  else
    true

/-- IsFinalizedTransaction from validate.go.  blockTime is the chosen time
basis in unix seconds (blockTime.Unix()). -/
def IsFinalizedTransaction (tx : Tx) (blockHeight : Int) (blockTime : Int) : Bool :=
  let lockTime := tx.msgTx.lockTime
  if lockTime = 0 then
    true
  else
    let blockTimeOrHeight : Int :=
      if lockTime < LockTimeThreshold then blockHeight else blockTime
    if (lockTime : Int) < blockTimeOrHeight then
      true
    else
      tx.msgTx.txIn.all (fun txIn => txIn.sequence == maxUint32)

/-- isBIP0030Node from validate.go. -/
def isBIP0030Node (node : BlockNode) : Bool :=
  if node.height = 91842 ∧ node.hash = block91842Hash then
    true
  else if node.height = 91880 ∧ node.hash = block91880Hash then
    true
  else
    false

/-- CalcBlockSubsidy from validate.go: baseSubsidy right-shifted by the Go
integer quotient height / SubsidyReductionInterval.  A negative quotient
converts to a value at least 2 to the 63 under the Go uint conversion, and
an arithmetic right shift of the positive baseSubsidy by that much is 0. -/
def CalcBlockSubsidy (height : Int) (chainParams : ChainParams) : Int :=
  if chainParams.subsidyReductionInterval = 0 then
    baseSubsidy
  else
    let q := height.tdiv chainParams.subsidyReductionInterval
    if q < 0 then 0 else ((baseSubsidy.toNat >>> q.toNat : Nat) : Int)

/-- ExtractCoinbaseHeight from validate.go, over the signature script of
input 0 of the coinbase transaction.  The source copies at most 8 of the
length-prefixed bytes into a zeroed 8-byte buffer, reads them as a
little-endian uint64 and converts to int32. -/
def ExtractCoinbaseHeight : List Nat → Except RuleErrorCode Int
  | [] => .error .ErrMissingCoinbaseHeight
  | opcode :: rest =>
    if opcode = OP_0 then
      .ok 0
    else if OP_1 ≤ opcode ∧ opcode ≤ OP_16 then
      .ok ((opcode : Int) - (OP_1 - 1))
    else
      let serializedLen := opcode
      if rest.length < serializedLen then
        .error .ErrMissingCoinbaseHeight
      else
        let copied := (rest.take serializedLen).take 8
        let serializedHeightBytes := copied ++ List.replicate (8 - copied.length) 0
        .ok (toInt32 (leNat serializedHeightBytes))

/-! Context-free transaction checks: CheckTransactionSanity and its loops,
in the exact order of the source.  The scriptFlags parameter of the Go
function is unused by its body and is omitted. -/

/-- The output-value loop of CheckTransactionSanity: per-output range
checks and the running total with the int64 overflow check of the source. -/
def checkOutputValues : List TxOut → Int → Except RuleErrorCode Unit
  | [], _ => .ok ()
  | txOut :: rest, totalSatoshi =>
    if txOut.value < 0 then
      .error .ErrBadTxOutValue
    else if txOut.value > MaxSatoshi then
      .error .ErrBadTxOutValue
    else
      let newTotal := wrap64 (totalSatoshi + txOut.value)
      if newTotal < 0 then
        .error .ErrBadTxOutValue
      else if newTotal > MaxSatoshi then
        .error .ErrBadTxOutValue
      else
        checkOutputValues rest newTotal

/-- The duplicate-input loop of CheckTransactionSanity, with an explicit
list standing for the Go set of seen outpoints. -/
def checkDuplicateInputs : List TxIn → List OutPoint → Except RuleErrorCode Unit
  | [], _ => .ok ()
  | txIn :: rest, seen =>
    if txIn.previousOutPoint ∈ seen then
      .error .ErrDuplicateTxInputs
    else
      checkDuplicateInputs rest (txIn.previousOutPoint :: seen)

/-- The null-outpoint loop of CheckTransactionSanity for non-coinbase
transactions. -/
def checkNullOutpoints : List TxIn → Except RuleErrorCode Unit
  | [] => .ok ()
  | txIn :: rest =>
    if isNullOutpoint txIn.previousOutPoint then
      .error .ErrBadTxInput
    else
      checkNullOutpoints rest

/-- CheckTransactionSanity from validate.go. -/
def CheckTransactionSanity (tx : Tx) (magneticAnomalyActive upgrade9Active : Bool) :
    Except RuleErrorCode Unit :=
  let msgTx := tx.msgTx
  if msgTx.txIn.length = 0 then
    .error .ErrNoTxInputs
  else if msgTx.txOut.length = 0 then
    .error .ErrNoTxOutputs
  else if tx.serializeSize > MaxTransactionSize then
    .error .ErrTxTooBig
  else if (magneticAnomalyActive || upgrade9Active) = true ∧
      tx.serializeSize <
        (if upgrade9Active = true then MinTransactionSize
         else MagneticAnomalyMinTransactionSize) then
    .error .ErrTxTooSmall
  else
    match checkOutputValues msgTx.txOut 0 with
    | .error e => .error e
    | .ok _ =>
      match checkDuplicateInputs msgTx.txIn [] with
      | .error e => .error e
      | .ok _ =>
        if IsCoinBase tx then
          let slen := (msgTx.txIn.headD ⟨⟨0, 0⟩, [], 0⟩).signatureScript.length
          if slen < MinCoinbaseScriptLen ∨ slen > MaxCoinbaseScriptLen then
            .error .ErrBadCoinbaseScriptLen
          else
            .ok ()
        else
          checkNullOutpoints msgTx.txIn

/-! Context-free block checks: checkBlockSanity.  The header sanity check
(proof of work, timestamp precision and ceiling) and the merkle-root
comparison delegate to external collaborators (big-integer difficulty,
block hashing, the merkle builder) and enter as oracle inputs: the result
of checkBlockHeaderSanity and whether the computed merkle root equals the
header field. -/

/-- The one-coinbase loop over transactions[1:]. -/
def checkMultipleCoinbases : List Tx → Except RuleErrorCode Unit
  | [] => .ok ()
  | tx :: rest =>
    if IsCoinBase tx then
      .error .ErrMultipleCoinbases
    else
      checkMultipleCoinbases rest

/-- The per-transaction loop of checkBlockSanity: the CTOR order check
(for index i above 1, the previous txid must compare strictly below the
current one) followed by CheckTransactionSanity.  lastTxid is the txid of
the previous transaction (unread at indices 0 and 1). -/
def sanityTxLoop (magneticAnomaly upgrade9 : Bool) :
    List Tx → Nat → Nat → Except RuleErrorCode Unit
  | [], _, _ => .ok ()
  | tx :: rest, i, lastTxid =>
    if magneticAnomaly = true ∧ i > 1 ∧ lastTxid ≥ tx.hash then
      .error .ErrInvalidTxOrder
    else
      match CheckTransactionSanity tx magneticAnomaly upgrade9 with
      | .error e => .error e
      | .ok _ => sanityTxLoop magneticAnomaly upgrade9 rest (i + 1) tx.hash

/-- The duplicate-transaction loop of checkBlockSanity, with an explicit
list standing for the Go set of seen txids. -/
def checkDuplicateTxs : List Tx → List Nat → Except RuleErrorCode Unit
  | [], _ => .ok ()
  | tx :: rest, seen =>
    if tx.hash ∈ seen then
      .error .ErrDuplicateTx
    else
      checkDuplicateTxs rest (tx.hash :: seen)

/-- checkBlockSanity from validate.go.  headerResult is the outcome of
checkBlockHeaderSanity; merkleRootMatches is whether the externally built
merkle root equals the header merkle root.  The BFMagneticAnomaly and
BFUpgrade9 behavior flags enter as booleans, as CheckBlockSanity sets
them. -/
def checkBlockSanity (headerResult : Except RuleErrorCode Unit) (merkleRootMatches : Bool)
    (transactions : List Tx) (magneticAnomaly upgrade9 : Bool) :
    Except RuleErrorCode Unit :=
  match headerResult with
  | .error e => .error e
  | .ok _ =>
    match transactions with
    | [] => .error .ErrNoTransactions
    | tx0 :: rest =>
      if ¬(IsCoinBase tx0 = true) then
        .error .ErrFirstTxNotCoinbase
      else
        match checkMultipleCoinbases rest with
        | .error e => .error e
        | .ok _ =>
          match sanityTxLoop magneticAnomaly upgrade9 (tx0 :: rest) 0 0 with
          | .error e => .error e
          | .ok _ =>
            if ¬(merkleRootMatches = true) then
              .error .ErrBadMerkleRoot
            else
              checkDuplicateTxs (tx0 :: rest) []

/-! Input and value checks: CheckTransactionInputs. -/

/-- The per-input loop of CheckTransactionInputs: existence, unspentness,
coinbase maturity, amount range and the accumulating total with the int64
overflow check of the source. -/
def checkInputsLoop (view : UtxoView) (txHeight coinbaseMaturity : Int) :
    List TxIn → Int → Except RuleErrorCode Int
  | [], totalSatoshiIn => .ok totalSatoshiIn
  | txIn :: rest, totalSatoshiIn =>
    match view txIn.previousOutPoint with
    | none => .error .ErrMissingTxOut
    | some utxo =>
      if utxo.isSpent = true then
        .error .ErrSpentTxOut
      else if utxo.isCoinBase = true ∧
          wrap32 (txHeight - utxo.blockHeight) < coinbaseMaturity then
        .error .ErrImmatureSpend
      else if utxo.amount < 0 then
        .error .ErrBadTxOutValue
      else if utxo.amount > MaxSatoshi then
        .error .ErrBadTxOutValue
      else
        let newTotal := wrap64 (totalSatoshiIn + utxo.amount)
        if newTotal < totalSatoshiIn ∨ newTotal > MaxSatoshi then
          .error .ErrBadTxOutValue
        else
          checkInputsLoop view txHeight coinbaseMaturity rest newTotal

/-- The output total of a transaction, accumulated with int64 wrap as the
unchecked Go sum does. -/
def sumOutputs : List TxOut → Int → Int
  | [], total => total
  | txOut :: rest, total => sumOutputs rest (wrap64 (total + txOut.value))

/-- CheckTransactionInputs from validate.go.  The chain parameters enter
through the coinbase maturity; the function returns the transaction fee. -/
def CheckTransactionInputs (tx : Tx) (txHeight : Int) (utxoView : UtxoView)
    (coinbaseMaturity : Int) : Except RuleErrorCode Int :=
  if IsCoinBase tx then
    .ok 0
  else
    match checkInputsLoop utxoView txHeight coinbaseMaturity tx.msgTx.txIn 0 with
    | .error e => .error e
    | .ok totalSatoshiIn =>
      let totalSatoshiOut := sumOutputs tx.msgTx.txOut 0
      if totalSatoshiIn < totalSatoshiOut then
        .error .ErrSpendTooHigh
      else
        .ok (wrap64 (totalSatoshiIn - totalSatoshiOut))

/-! The connect orchestrator: checkConnectBlock and its collaborators. -/

/-- BlockChain.MaxBlockSize from validate.go. -/
def MaxBlockSize (b : BlockChainState) (uahfActive ablaActive : Bool) : Nat :=
  if uahfActive = true then
    if ¬(ablaActive = true) then b.excessiveBlockSize else b.ablaBlockSizeLimit
  else
    LegacyMaxBlockSize

/-- The sig-check budget computed at the script-verification call of
checkConnectBlock: the ABLA controller block size limit converted to
uint32 and divided by BlockMaxBytesMaxSigChecksRatio. -/
def connectMaxSigChecks (ablaBlockSizeLimit : Nat) : Nat :=
  (ablaBlockSizeLimit % 4294967296) / BlockMaxBytesMaxSigChecksRatio

/-- Modelled from the spec: the sig-check budget the specification claims
is passed to script verification, namely the resolved max_block_size for
the activation context divided by BlockMaxBytesMaxSigChecksRatio.  Stated
from the words of the spec for comparison with connectMaxSigChecks. -/
def specMaxSigChecks (b : BlockChainState) (uahfActive ablaActive : Bool) : Nat :=
  MaxBlockSize b uahfActive ablaActive / BlockMaxBytesMaxSigChecksRatio

/-- The inner output loop of checkBIP0030 for one transaction: every
output position of the transaction must not match a still-unspent entry in
the view (or, failing the view, the UTXO store read through the cache). -/
def bip30CheckOutputs (view cache : UtxoView) (txHash : Nat) :
    List Nat → Except RuleErrorCode Unit
  | [] => .ok ()
  | txOutIdx :: rest =>
    let prevOut : OutPoint := ⟨txHash, txOutIdx⟩
    let utxo := match view prevOut with
      | some u => some u
      | none => cache prevOut
    match utxo with
    | some u =>
      if ¬(u.isSpent = true) then
        .error .ErrOverwriteTx
      else
        bip30CheckOutputs view cache txHash rest
    | none => bip30CheckOutputs view cache txHash rest

/-- checkBIP0030 from validate.go, looping over the transactions of the
block and their output indices. -/
def checkBIP0030 (view cache : UtxoView) : List Tx → Except RuleErrorCode Unit
  | [] => .ok ()
  | tx :: rest =>
    match bip30CheckOutputs view cache tx.hash (List.range tx.msgTx.txOut.length) with
    | .error e => .error e
    | .ok _ => checkBIP0030 view cache rest

/-- The txscript.ScriptFlags bit set, one boolean per flag used by the
orchestrator. -/
structure ScriptFlags where
  scriptBip16 : Bool := false
  verifyDERSignatures : Bool := false
  verifyCheckLockTimeVerify : Bool := false
  verifyStrictEncoding : Bool := false
  verifyBip143SigHash : Bool := false
  verifyLowS : Bool := false
  verifyNullFail : Bool := false
  verifySigPushOnly : Bool := false
  verifyCleanStack : Bool := false
  verifyCheckDataSig : Bool := false
  verifySchnorr : Bool := false
  verifyAllowSegwitRecovery : Bool := false
  verifyMinimalData : Bool := false
  verifySchnorrMultisig : Bool := false
  reportSigChecks : Bool := false
  verifyReverseBytes : Bool := false
  verify64BitIntegers : Bool := false
  verifyNativeIntrospection : Bool := false
  allowCashTokens : Bool := false
  allowMay2025 : Bool := false
  verifyCheckSequenceVerify : Bool := false
deriving DecidableEq, Repr

/-- The script flag set built by checkConnectBlock before the CSV check,
following the source line by line. -/
def buildConnectScriptFlags (node : BlockNode) (headerVersion : Int) (p : ChainParams)
    (uahfActive daaActive magneticAnomalyActive greatWallActive gravitonActive
      phononActive cosmicInflationActive upgrade9Active upgrade11Active : Bool) :
    ScriptFlags :=
  { scriptBip16 := decide (node.timestamp ≥ p.bip16ActivationTime)
    verifyDERSignatures := decide (headerVersion ≥ 3 ∧ node.height ≥ p.bip0066Height)
    verifyCheckLockTimeVerify := decide (headerVersion ≥ 4 ∧ node.height ≥ p.bip0065Height)
    verifyStrictEncoding := uahfActive
    verifyBip143SigHash := uahfActive
    verifyLowS := daaActive
    verifyNullFail := daaActive
    verifySigPushOnly := magneticAnomalyActive
    verifyCleanStack := magneticAnomalyActive
    verifyCheckDataSig := magneticAnomalyActive
    verifySchnorr := greatWallActive
    verifyAllowSegwitRecovery := greatWallActive
    verifyMinimalData := gravitonActive
    verifySchnorrMultisig := gravitonActive
    reportSigChecks := phononActive
    verifyReverseBytes := phononActive
    verify64BitIntegers := cosmicInflationActive
    verifyNativeIntrospection := cosmicInflationActive
    allowCashTokens := upgrade9Active
    allowMay2025 := upgrade11Active
    verifyCheckSequenceVerify := false }

/-- The external collaborators checkConnectBlock calls, at their
interfaces: UTXO view population and connection (the stxos sink is not
observable and is omitted), the latest checkpoint, the CSV deployment
state, sequence-lock calculation and the script interpreter fan-out.  The
script oracle receives the view, the flag set and the sig-check budget. -/
structure ConnectExternals where
  addInputUtxos : UtxoView → Block → Bool → Except RuleErrorCode UtxoView
  connectTransaction : UtxoView → Tx → Int → Except RuleErrorCode UtxoView
  connectTransactions : UtxoView → Block → Except RuleErrorCode UtxoView
  latestCheckpoint : Option Int
  csvThresholdActive : Except RuleErrorCode Bool
  calcSequenceLock : UtxoView → Tx → Except RuleErrorCode SequenceLock
  checkBlockScripts : UtxoView → ScriptFlags → Nat → Except RuleErrorCode Unit

/-- The per-transaction loop of checkConnectBlock: input checks, fee
accumulation with the int64 overflow check, and, when MagneticAnomaly is
inactive, topological connection of each transaction in turn. -/
def connectTxLoop (exts : ConnectExternals) (coinbaseMaturity height : Int)
    (magneticAnomalyActive : Bool) :
    List Tx → UtxoView → Int → Except RuleErrorCode (UtxoView × Int)
  | [], view, totalFees => .ok (view, totalFees)
  | tx :: rest, view, totalFees =>
    match CheckTransactionInputs tx height view coinbaseMaturity with
    | .error e => .error e
    | .ok txFee =>
      let newTotalFees := wrap64 (totalFees + txFee)
      if newTotalFees < totalFees then
        .error .ErrBadFees
      else if ¬(magneticAnomalyActive = true) then
        match exts.connectTransaction view tx height with
        | .error e => .error e
        | .ok view2 =>
          connectTxLoop exts coinbaseMaturity height magneticAnomalyActive rest view2 newTotalFees
      else
        connectTxLoop exts coinbaseMaturity height magneticAnomalyActive rest view newTotalFees

/-- The sequence-lock loop run when the CSV deployment is active. -/
def csvSeqLoop (exts : ConnectExternals) (view : UtxoView) (height medianTime : Int) :
    List Tx → Except RuleErrorCode Unit
  | [] => .ok ()
  | tx :: rest =>
    match exts.calcSequenceLock view tx with
    | .error e => .error e
    | .ok sequenceLock =>
      if ¬(SequenceLockActive sequenceLock height medianTime = true) then
        .error .ErrUnfinalizedTx
      else
        csvSeqLoop exts view height medianTime rest

/-- An empty transaction used where Go would dereference
block.Transactions()[0]; checkConnectBlock is only reached with a
nonempty, sanity-checked transaction list. -/
def emptyTx : Tx := ⟨⟨[], [], 0⟩, 0, 0⟩

/-- The tail of checkConnectBlock after transaction connection: the
coinbase subsidy check, the checkpoint gate, the CSV deployment branch and
the script verification call with its sig-check budget. -/
def connectTail (st : BlockChainState) (exts : ConnectExternals) (view : UtxoView)
    (node : BlockNode) (block : Block) (scriptFlags : ScriptFlags) (totalFees : Int) :
    Except RuleErrorCode Unit :=
  let totalSatoshiOut := sumOutputs (block.transactions.headD emptyTx).msgTx.txOut 0
  let expectedSatoshiOut := wrap64 (CalcBlockSubsidy node.height st.chainParams + totalFees)
  if totalSatoshiOut > expectedSatoshiOut then
    .error .ErrBadCoinbaseValue
  else
    let runScripts : Bool :=
      match exts.latestCheckpoint with
      | some checkpointHeight => decide (node.height > checkpointHeight)
      | none => true
    match exts.csvThresholdActive with
    | .error e => .error e
    | .ok csvActive =>
      let flagsWithCsv :=
        if csvActive = true then
          { scriptFlags with verifyCheckSequenceVerify := true }
        else
          scriptFlags
      let csvResult :=
        if csvActive = true then
          csvSeqLoop exts view node.height node.parentMTP block.transactions
        else
          .ok ()
      match csvResult with
      | .error e => .error e
      | .ok _ =>
        if runScripts = true then
          exts.checkBlockScripts view flagsWithCsv (connectMaxSigChecks st.ablaBlockSizeLimit)
        else
          .ok ()

/-- The body of checkConnectBlock after the genesis and BIP30 gates:
activation resolution, view population, script-flag construction, the
transaction loop, the Outputs-Then-Inputs connection under
MagneticAnomaly (where the source swallows the error: on a failed
connectTransactions it returns success), then the tail. -/
def connectBody (st : BlockChainState) (exts : ConnectExternals) (view0 : UtxoView)
    (node : BlockNode) (block : Block) : Except RuleErrorCode Unit :=
  let p := st.chainParams
  let uahfActive := decide (node.height > p.uahfForkHeight)
  let daaActive := decide (node.height > p.daaForkHeight)
  let magneticAnomalyActive := decide (node.height > p.magneticAnomalyForkHeight)
  let greatWallActive := decide (node.height > p.greatWallForkHeight)
  let gravitonActive := decide (node.height > p.gravitonForkHeight)
  let phononActive := decide (node.height > p.phononForkHeight)
  let cosmicInflationActive := decide (node.parentMTP ≥ p.cosmicInflationActivationTime)
  let upgrade9Active := decide (node.height > p.upgrade9ForkHeight)
  let upgrade11Active := decide (node.parentMTP ≥ p.upgrade11ActivationTime)
  match exts.addInputUtxos view0 block magneticAnomalyActive with
  | .error e => .error e
  | .ok view1 =>
    let scriptFlags := buildConnectScriptFlags node block.headerVersion p
      uahfActive daaActive magneticAnomalyActive greatWallActive gravitonActive
      phononActive cosmicInflationActive upgrade9Active upgrade11Active
    match connectTxLoop exts p.coinbaseMaturity node.height magneticAnomalyActive
        block.transactions view1 0 with
    | .error e => .error e
    | .ok (view2, totalFees) =>
      if magneticAnomalyActive = true then
        match exts.connectTransactions view2 block with
        | .error _ => .ok ()
        | .ok view3 => connectTail st exts view3 node block scriptFlags totalFees
      else
        connectTail st exts view2 node block scriptFlags totalFees

/-- checkConnectBlock from validate.go: the genesis gate, the BIP30 gate
with its two grandfathered exceptions, then the body. -/
def checkConnectBlock (st : BlockChainState) (exts : ConnectExternals)
    (view : UtxoView) (cache : UtxoView) (node : BlockNode) (block : Block) :
    Except RuleErrorCode Unit :=
  if node.hash = st.chainParams.genesisHash then
    .error .ErrMissingTxOut
  else if isBIP0030Node node = false ∧ node.height < st.chainParams.bip0034Height then
    match checkBIP0030 view cache block.transactions with
    | .error e => .error e
    | .ok _ => connectBody st exts view node block
  else
    connectBody st exts view node block

/-! Arithmetic helper lemmas. -/

/-- An int32-range integer is unchanged by the int32 wrap. -/
theorem wrap32_eq_self (x : Int) (h0 : -2147483648 ≤ x) (h1 : x < 2147483648) :
    wrap32 x = x := by
  unfold wrap32
  omega

/-- An int64-range integer is unchanged by the int64 wrap. -/
theorem wrap64_eq_self (x : Int) (h0 : -9223372036854775808 ≤ x)
    (h1 : x < 9223372036854775808) : wrap64 x = x := by
  unfold wrap64
  omega

/-- A value below 2 to the 31 is unchanged by the uint64-to-int32
conversion. -/
theorem toInt32_eq_self (n : Nat) (h : n < 2147483648) : toInt32 n = (n : Int) := by
  unfold toInt32
  omega

/-- Trailing zero bytes do not change the little-endian value. -/
theorem leNat_append_zeros (xs : List Nat) (n : Nat) :
    leNat (xs ++ List.replicate n 0) = leNat xs := by
  induction xs with
  | nil =>
    induction n with
    | zero => rfl
    | succ m ih => simpa [leNat] using ih
  | cons b rest ih => simp [leNat, ih]

/-- Truncated integer division of nonnegative integers is Nat division of
the underlying naturals. -/
theorem tdiv_toNat_div (a b : Int) (ha : 0 ≤ a) (hb : 0 < b) :
    (a.tdiv b).toNat = a.toNat / b.toNat := by
  rw [Int.tdiv_eq_ediv ha hb.le]
  have h1 : (a.toNat : Int) = a := Int.toNat_of_nonneg ha
  have h2 : (b.toNat : Int) = b := Int.toNat_of_nonneg hb.le
  have h3 : ((a.toNat / b.toNat : Nat) : Int) = a / b := by
    rw [Int.ofNat_ediv, h1, h2]
  rw [← h3]
  exact Int.toNat_natCast _

/-! Claim C4: block subsidy. -/

/-- Concrete chain parameters with a given subsidy reduction interval and
neutral values elsewhere. -/
def paramsWithInterval (interval : Int) : ChainParams :=
  { genesisHash := 0
    uahfForkHeight := 0
    daaForkHeight := 0
    magneticAnomalyForkHeight := 0
    greatWallForkHeight := 0
    gravitonForkHeight := 0
    phononForkHeight := 0
    upgrade9ForkHeight := 0
    cosmicInflationActivationTime := 0
    upgrade11ActivationTime := 0
    bip0034Height := 0
    bip0065Height := 0
    bip0066Height := 0
    bip16ActivationTime := 0
    subsidyReductionInterval := interval
    coinbaseMaturity := 100 }

/-- Claim C4: CalcBlockSubsidy equals baseSubsidy right-shifted by the
floor of height divided by SubsidyReductionInterval, and baseSubsidy when
the interval is 0; in particular the stated values at heights 210000,
419999 and 420000 with interval 210000, and 5000000000 at every height
with interval 0. -/
theorem calcBlockSubsidy_halving :
    (∀ (height : Int) (p : ChainParams), 0 ≤ height → 0 < p.subsidyReductionInterval →
      CalcBlockSubsidy height p =
        ((baseSubsidy.toNat >>> (height.toNat / p.subsidyReductionInterval.toNat) : Nat) : Int))
    ∧ (∀ (height : Int) (p : ChainParams), p.subsidyReductionInterval = 0 →
      CalcBlockSubsidy height p = baseSubsidy)
    ∧ CalcBlockSubsidy 210000 (paramsWithInterval 210000) = 2500000000
    ∧ CalcBlockSubsidy 419999 (paramsWithInterval 210000) = 2500000000
    ∧ CalcBlockSubsidy 420000 (paramsWithInterval 210000) = 1250000000
    ∧ (∀ height : Int, CalcBlockSubsidy height (paramsWithInterval 0) = 5000000000) := by
  refine ⟨?_, ?_, by decide, by decide, by decide, ?_⟩
  · intro height p hh hp
    unfold CalcBlockSubsidy
    rw [if_neg (by omega)]
    have hq : 0 ≤ height.tdiv p.subsidyReductionInterval :=
      Int.tdiv_nonneg hh hp.le
    simp only [if_neg (by omega : ¬ height.tdiv p.subsidyReductionInterval < 0)]
    rw [tdiv_toNat_div height p.subsidyReductionInterval hh hp]
  · intro height p hp
    unfold CalcBlockSubsidy
    rw [if_pos hp]
  · intro height
    rfl

/-- Witness for C4 at the halving boundary height 420000. -/
theorem calcBlockSubsidy_halving_witness :
    CalcBlockSubsidy 420000 (paramsWithInterval 210000) =
      ((baseSubsidy.toNat >>>
        (Int.toNat 420000 / (paramsWithInterval 210000).subsidyReductionInterval.toNat) : Nat) : Int) :=
  calcBlockSubsidy_halving.1 420000 (paramsWithInterval 210000) (by decide) (by decide)

/-! Claims C5 and C10: coinbase height extraction. -/

/-- Shared evaluation lemma for the length-prefixed branch of
ExtractCoinbaseHeight: with a raw length byte and enough following bytes,
the result is the little-endian value of the first min(L, 8) of them,
converted to int32. -/
theorem extractCoinbaseHeight_eval (L : Nat) (rest : List Nat)
    (hL0 : L ≠ 0) (hOp : ¬(OP_1 ≤ L ∧ L ≤ OP_16)) (hlen : L ≤ rest.length) :
    ExtractCoinbaseHeight (L :: rest) = .ok (toInt32 (leNat (rest.take (min L 8)))) := by
  simp only [ExtractCoinbaseHeight]
  rw [if_neg (by simpa [OP_0] using hL0), if_neg hOp,
    if_neg (by omega : ¬ rest.length < L)]
  congr 2
  rw [List.take_take, leNat_append_zeros, Nat.min_comm]

/-- Claim C10: for a raw length byte L with at least L following bytes,
ExtractCoinbaseHeight returns the low 32 bits of the little-endian value
of the first min(L, 8) following bytes reinterpreted as signed int32:
values of 2 to the 31 or more wrap to negative heights, and bytes beyond
the eighth are ignored rather than rejected. -/
theorem extractCoinbaseHeight_truncation :
    (∀ (L : Nat) (rest : List Nat), L ≠ 0 → ¬(OP_1 ≤ L ∧ L ≤ OP_16) → L ≤ rest.length →
      ExtractCoinbaseHeight (L :: rest) = .ok (toInt32 (leNat (rest.take (min L 8)))))
    ∧ ExtractCoinbaseHeight [4, 0, 0, 0, 128] = .ok (-2147483648)
    ∧ ExtractCoinbaseHeight [9, 1, 0, 0, 0, 0, 0, 0, 0, 255] = .ok 1 := by
  refine ⟨extractCoinbaseHeight_eval, rfl, rfl⟩

/-- Witness for C10: an encoded value of 2 to the 31 yields a negative
height. -/
theorem extractCoinbaseHeight_truncation_witness :
    ExtractCoinbaseHeight (4 :: [0, 0, 0, 128]) =
      .ok (toInt32 (leNat ([0, 0, 0, 128].take (min 4 8)))) :=
  extractCoinbaseHeight_truncation.1 4 [0, 0, 0, 128] (by decide) (by decide) (by decide)

/-- Counterexample to claim C5 as stated: on script [0x04, 0xFF, 0xFF,
0xFF, 0xFF] the little-endian unsigned integer of the 4 length bytes is
4294967295, but ExtractCoinbaseHeight returns -1 because the value is
converted to a signed 32-bit integer. -/
theorem extractCoinbaseHeight_le_counterexample :
    leNat [255, 255, 255, 255] = 4294967295
    ∧ ExtractCoinbaseHeight [4, 255, 255, 255, 255] = .ok (-1)
    ∧ ((-1 : Int) = 4294967295 → False) :=
  ⟨by decide, rfl, by decide⟩

/-- Claim C5 as amended: the opcode cases and the MissingCoinbaseHeight
condition are as claimed, and in the raw-length case the result equals the
little-endian unsigned integer of the next L bytes whenever L is at most 8
and that value fits in a signed 32-bit integer (otherwise it is the int32
truncation established for C10). -/
theorem extractCoinbaseHeight_spec :
    ExtractCoinbaseHeight [0] = .ok 0
    ∧ ExtractCoinbaseHeight [81] = .ok 1
    ∧ ExtractCoinbaseHeight [96] = .ok 16
    ∧ ExtractCoinbaseHeight [3, 64, 13, 3] = .ok 200000
    ∧ ExtractCoinbaseHeight [] = .error .ErrMissingCoinbaseHeight
    ∧ ExtractCoinbaseHeight [3, 64, 13] = .error .ErrMissingCoinbaseHeight
    ∧ (∀ (L : Nat) (rest : List Nat), L ≠ 0 → ¬(OP_1 ≤ L ∧ L ≤ OP_16) → L ≤ 8 →
        L ≤ rest.length → leNat (rest.take L) < 2147483648 →
        ExtractCoinbaseHeight (L :: rest) = .ok ((leNat (rest.take L) : Int)))
    ∧ (∀ (L : Nat) (rest : List Nat), L ≠ 0 → ¬(OP_1 ≤ L ∧ L ≤ OP_16) →
        rest.length < L →
        ExtractCoinbaseHeight (L :: rest) = .error .ErrMissingCoinbaseHeight)
    ∧ (∀ (op : Nat) (rest : List Nat), op = OP_0 ∨ (OP_1 ≤ op ∧ op ≤ OP_16) →
        ∃ v, ExtractCoinbaseHeight (op :: rest) = .ok v) := by
  refine ⟨rfl, rfl, rfl, rfl, rfl, rfl, ?_, ?_, ?_⟩
  · intro L rest hL0 hOp hL8 hlen hsmall
    rw [extractCoinbaseHeight_eval L rest hL0 hOp hlen]
    rw [Nat.min_eq_left hL8, toInt32_eq_self _ hsmall]
  · intro L rest hL0 hOp hshort
    simp only [ExtractCoinbaseHeight]
    rw [if_neg (by simpa [OP_0] using hL0), if_neg hOp, if_pos hshort]
  · intro op rest hop
    simp only [ExtractCoinbaseHeight]
    rcases hop with h0 | hr
    · rw [if_pos h0]
      exact ⟨0, rfl⟩
    · rw [if_neg (by simp only [OP_0, OP_1, OP_16] at hr ⊢; omega), if_pos hr]
      exact ⟨(op : Int) - (OP_1 - 1), rfl⟩

/-- Witness for C5 at the 200000 example through the general raw-length
case. -/
theorem extractCoinbaseHeight_spec_witness :
    ExtractCoinbaseHeight (3 :: [64, 13, 3]) = .ok ((leNat ([64, 13, 3].take 3) : Int)) :=
  (extractCoinbaseHeight_spec.2.2.2.2.2.2.1) 3 [64, 13, 3]
    (by decide) (by decide) (by decide) (by decide) (by decide)

/-! Claim C6: transaction finalization. -/

/-- A transaction with lock time 0 and one input whose sequence is not
maxed out. -/
def c6TxZero : Tx := ⟨⟨[⟨⟨1, 0⟩, [], 0⟩], [⟨0⟩], 0⟩, 11, 100⟩

/-- A transaction with lock time 499999999 (height-interpreted) and one
input whose sequence is not maxed out. -/
def c6TxHeight : Tx := ⟨⟨[⟨⟨1, 0⟩, [], 0⟩], [⟨0⟩], 499999999⟩, 12, 100⟩

/-- A transaction with lock time 500000001 (time-interpreted) and one
input whose sequence is not maxed out. -/
def c6TxTime : Tx := ⟨⟨[⟨⟨1, 0⟩, [], 0⟩], [⟨0⟩], 500000001⟩, 13, 100⟩

/-- A transaction with a nonzero, unreached lock time and every input
sequence maxed out. -/
def c6TxMaxSeq : Tx := ⟨⟨[⟨⟨1, 0⟩, [], 4294967295⟩], [⟨0⟩], 499999999⟩, 14, 100⟩

/-- Claim C6: IsFinalizedTransaction returns true exactly when the lock
time is 0, or it is below 500000000 and below the height, or it is at
least 500000000 and below the time basis, or every input sequence is
0xFFFFFFFF; with the stated boundary instances. -/
theorem isFinalizedTransaction_spec :
    (∀ (tx : Tx) (blockHeight blockTime : Int),
      IsFinalizedTransaction tx blockHeight blockTime = true ↔
        (tx.msgTx.lockTime = 0
          ∨ (tx.msgTx.lockTime < 500000000 ∧ (tx.msgTx.lockTime : Int) < blockHeight)
          ∨ (500000000 ≤ tx.msgTx.lockTime ∧ (tx.msgTx.lockTime : Int) < blockTime)
          ∨ ∀ txIn ∈ tx.msgTx.txIn, txIn.sequence = 4294967295))
    ∧ (∀ blockHeight blockTime : Int,
        IsFinalizedTransaction c6TxZero blockHeight blockTime = true)
    ∧ (∀ blockTime : Int,
        IsFinalizedTransaction c6TxHeight 499999999 blockTime = false)
    ∧ (∀ blockTime : Int,
        IsFinalizedTransaction c6TxHeight 500000000 blockTime = true)
    ∧ (∀ blockHeight : Int,
        IsFinalizedTransaction c6TxTime blockHeight 500000000 = false)
    ∧ (∀ blockHeight : Int,
        IsFinalizedTransaction c6TxTime blockHeight 500000002 = true)
    ∧ (∀ blockHeight blockTime : Int,
        IsFinalizedTransaction c6TxMaxSeq blockHeight blockTime = true) := by
  have main : ∀ (tx : Tx) (blockHeight blockTime : Int),
      IsFinalizedTransaction tx blockHeight blockTime = true ↔
        (tx.msgTx.lockTime = 0
          ∨ (tx.msgTx.lockTime < 500000000 ∧ (tx.msgTx.lockTime : Int) < blockHeight)
          ∨ (500000000 ≤ tx.msgTx.lockTime ∧ (tx.msgTx.lockTime : Int) < blockTime)
          ∨ ∀ txIn ∈ tx.msgTx.txIn, txIn.sequence = 4294967295) := by
    intro tx blockHeight blockTime
    unfold IsFinalizedTransaction
    by_cases h0 : tx.msgTx.lockTime = 0
    · simp [h0]
    · rw [if_neg h0]
      by_cases hThr : tx.msgTx.lockTime < LockTimeThreshold
      · rw [if_pos hThr]
        by_cases hlt : (tx.msgTx.lockTime : Int) < blockHeight
        · simp only [if_pos hlt, true_iff]
          exact Or.inr (Or.inl ⟨by simpa [LockTimeThreshold] using hThr, hlt⟩)
        · rw [if_neg hlt]
          rw [List.all_eq_true]
          constructor
          · intro hall
            refine Or.inr (Or.inr (Or.inr ?_))
            intro txIn hmem
            have := hall txIn hmem
            simpa [maxUint32] using this
          · intro hdisj
            rcases hdisj with h | ⟨_, h⟩ | ⟨h, _⟩ | hall
            · exact absurd h h0
            · exact absurd h hlt
            · exact absurd (by simpa [LockTimeThreshold] using hThr) (by omega)
            · intro txIn hmem
              simpa [maxUint32] using hall txIn hmem
      · rw [if_neg hThr]
        by_cases hlt : (tx.msgTx.lockTime : Int) < blockTime
        · simp only [if_pos hlt, true_iff]
          refine Or.inr (Or.inr (Or.inl ⟨?_, hlt⟩))
          simpa [LockTimeThreshold] using hThr
        · rw [if_neg hlt]
          rw [List.all_eq_true]
          constructor
          · intro hall
            refine Or.inr (Or.inr (Or.inr ?_))
            intro txIn hmem
            simpa [maxUint32] using hall txIn hmem
          · intro hdisj
            rcases hdisj with h | ⟨h, _⟩ | ⟨_, h⟩ | hall
            · exact absurd h h0
            · exact absurd h (by simpa [LockTimeThreshold] using hThr)
            · exact absurd h hlt
            · intro txIn hmem
              simpa [maxUint32] using hall txIn hmem
  refine ⟨main, ?_, ?_, ?_, ?_, ?_, ?_⟩
  · intro blockHeight blockTime
    exact (main c6TxZero blockHeight blockTime).mpr (Or.inl rfl)
  · intro blockTime
    rw [Bool.eq_false_iff]
    intro hcontra
    rcases (main c6TxHeight 499999999 blockTime).mp hcontra with h | ⟨_, h⟩ | ⟨h, _⟩ | hall
    · exact absurd h (by decide)
    · exact absurd h (by decide)
    · exact absurd h (by decide)
    · exact absurd (hall ⟨⟨1, 0⟩, [], 0⟩ (by decide)) (by decide)
  · intro blockTime
    exact (main c6TxHeight 500000000 blockTime).mpr (Or.inr (Or.inl ⟨by decide, by decide⟩))
  · intro blockHeight
    rw [Bool.eq_false_iff]
    intro hcontra
    rcases (main c6TxTime blockHeight 500000000).mp hcontra with h | ⟨h, _⟩ | ⟨_, h⟩ | hall
    · exact absurd h (by decide)
    · exact absurd h (by decide)
    · exact absurd h (by decide)
    · exact absurd (hall ⟨⟨1, 0⟩, [], 0⟩ (by decide)) (by decide)
  · intro blockHeight
    exact (main c6TxTime blockHeight 500000002).mpr (Or.inr (Or.inr (Or.inl ⟨by decide, by decide⟩)))
  · intro blockHeight blockTime
    refine (main c6TxMaxSeq blockHeight blockTime).mpr (Or.inr (Or.inr (Or.inr ?_)))
    intro txIn hmem
    simp only [c6TxMaxSeq, List.mem_singleton] at hmem
    rw [hmem]

/-- Witness for C6 at lock time 0. -/
theorem isFinalizedTransaction_spec_witness :
    IsFinalizedTransaction c6TxZero 0 0 = true :=
  isFinalizedTransaction_spec.2.1 0 0

/-! Claim C7: transaction size bounds.  The later stages of
CheckTransactionSanity can only raise value, duplicate-input, coinbase
script length or null-outpoint errors, so the size errors are raised
exactly at the size checks. -/

/-- The output-value loop only raises ErrBadTxOutValue. -/
theorem checkOutputValues_error (outs : List TxOut) (acc : Int) (e : RuleErrorCode)
    (h : checkOutputValues outs acc = .error e) : e = .ErrBadTxOutValue := by
  induction outs generalizing acc with
  | nil => exact absurd h (by simp [checkOutputValues])
  | cons txOut rest ih =>
    unfold checkOutputValues at h
    dsimp only at h
    split_ifs at h with h1 h2 h3 h4
    · exact (Except.error.inj h).symm
    · exact (Except.error.inj h).symm
    · exact (Except.error.inj h).symm
    · exact (Except.error.inj h).symm
    · exact ih _ h

/-- The duplicate-input loop only raises ErrDuplicateTxInputs. -/
theorem checkDuplicateInputs_error (ins : List TxIn) (seen : List OutPoint)
    (e : RuleErrorCode) (h : checkDuplicateInputs ins seen = .error e) :
    e = .ErrDuplicateTxInputs := by
  induction ins generalizing seen with
  | nil => exact absurd h (by simp [checkDuplicateInputs])
  | cons txIn rest ih =>
    unfold checkDuplicateInputs at h
    split_ifs at h with h1
    · exact (Except.error.inj h).symm
    · exact ih _ h

/-- The null-outpoint loop only raises ErrBadTxInput. -/
theorem checkNullOutpoints_error (ins : List TxIn) (e : RuleErrorCode)
    (h : checkNullOutpoints ins = .error e) : e = .ErrBadTxInput := by
  induction ins with
  | nil => exact absurd h (by simp [checkNullOutpoints])
  | cons txIn rest ih =>
    unfold checkNullOutpoints at h
    split_ifs at h with h1
    · exact (Except.error.inj h).symm
    · exact ih h

/-- After the size checks, CheckTransactionSanity never raises the size
errors. -/
theorem checkTransactionSanity_late_errors (tx : Tx) (ma u9 : Bool)
    (hin : ¬ tx.msgTx.txIn.length = 0) (hout : ¬ tx.msgTx.txOut.length = 0)
    (hbig : ¬ tx.serializeSize > MaxTransactionSize)
    (hsmall : ¬ ((ma || u9) = true ∧
      tx.serializeSize <
        (if u9 = true then MinTransactionSize else MagneticAnomalyMinTransactionSize))) :
    CheckTransactionSanity tx ma u9 ≠ .error .ErrTxTooBig
    ∧ CheckTransactionSanity tx ma u9 ≠ .error .ErrTxTooSmall := by
  unfold CheckTransactionSanity
  rw [if_neg hin, if_neg hout, if_neg hbig, if_neg hsmall]
  constructor
  all_goals
    cases hov : checkOutputValues tx.msgTx.txOut 0 with
    | error e =>
      simp only [hov]
      intro hcontra
      have := checkOutputValues_error _ _ _ hov
      rw [this] at hcontra
      exact absurd (Except.error.inj hcontra) (by decide)
    | ok _ =>
      simp only [hov]
      cases hdup : checkDuplicateInputs tx.msgTx.txIn [] with
      | error e =>
        simp only [hdup]
        intro hcontra
        have := checkDuplicateInputs_error _ _ _ hdup
        rw [this] at hcontra
        exact absurd (Except.error.inj hcontra) (by decide)
      | ok _ =>
        simp only [hdup]
        split_ifs with hcb hslen
        · intro hcontra
          exact absurd (Except.error.inj hcontra) (by decide)
        · intro hcontra
          exact absurd hcontra (by simp)
        · intro hcontra
          have := checkNullOutpoints_error _ _ hcontra
          exact absurd this (by decide)

/-- A non-coinbase transaction of a given serialized size with one input
and one output, for the boundary cases of C7. -/
def txOfSize (n : Nat) : Tx := ⟨⟨[⟨⟨1, 0⟩, [], 0⟩], [⟨0⟩], 0⟩, 21, n⟩

/-- Claim C7: CheckTransactionSanity fails with TxTooBig exactly when the
serialized size exceeds 1000000, and with TxTooSmall exactly when
MagneticAnomaly or Upgrade9 is active and the size is below the floor (65
under Upgrade9, 100 under MagneticAnomaly alone); with the stated boundary
instances. -/
theorem checkTransactionSanity_size_bounds :
    (∀ (tx : Tx) (ma u9 : Bool), tx.msgTx.txIn ≠ [] → tx.msgTx.txOut ≠ [] →
      ((CheckTransactionSanity tx ma u9 = .error .ErrTxTooBig ↔
          tx.serializeSize > 1000000)
        ∧ (CheckTransactionSanity tx ma u9 = .error .ErrTxTooSmall ↔
          ((ma = true ∨ u9 = true) ∧
            tx.serializeSize < (if u9 = true then 65 else 100)))))
    ∧ CheckTransactionSanity (txOfSize 64) false true = .error .ErrTxTooSmall
    ∧ CheckTransactionSanity (txOfSize 65) false true = .ok ()
    ∧ CheckTransactionSanity (txOfSize 99) true false = .error .ErrTxTooSmall
    ∧ CheckTransactionSanity (txOfSize 100) true false = .ok () := by
  refine ⟨?_, rfl, rfl, rfl, rfl⟩
  intro tx ma u9 hin hout
  have hin0 : ¬ tx.msgTx.txIn.length = 0 := by
    simpa [List.length_eq_zero] using hin
  have hout0 : ¬ tx.msgTx.txOut.length = 0 := by
    simpa [List.length_eq_zero] using hout
  constructor
  · constructor
    · intro h
      by_contra hbig
      by_cases hsmall : ((ma || u9) = true ∧
          tx.serializeSize <
            (if u9 = true then MinTransactionSize else MagneticAnomalyMinTransactionSize))
      · have : CheckTransactionSanity tx ma u9 = .error .ErrTxTooSmall := by
          unfold CheckTransactionSanity
          rw [if_neg hin0, if_neg hout0,
            if_neg (by simpa [MaxTransactionSize] using hbig), if_pos hsmall]
        rw [this] at h
        exact absurd (Except.error.inj h) (by decide)
      · exact absurd h
          (checkTransactionSanity_late_errors tx ma u9 hin0 hout0
            (by simpa [MaxTransactionSize] using hbig) hsmall).1
    · intro hbig
      unfold CheckTransactionSanity
      rw [if_neg hin0, if_neg hout0, if_pos (by simpa [MaxTransactionSize] using hbig)]
  · constructor
    · intro h
      by_cases hbig : tx.serializeSize > MaxTransactionSize
      · have : CheckTransactionSanity tx ma u9 = .error .ErrTxTooBig := by
          unfold CheckTransactionSanity
          rw [if_neg hin0, if_neg hout0, if_pos hbig]
        rw [this] at h
        exact absurd (Except.error.inj h) (by decide)
      · by_cases hsmall : ((ma || u9) = true ∧
            tx.serializeSize <
              (if u9 = true then MinTransactionSize else MagneticAnomalyMinTransactionSize))
        · refine ⟨by simpa using hsmall.1, ?_⟩
          have := hsmall.2
          simpa [MinTransactionSize, MagneticAnomalyMinTransactionSize] using this
        · exact absurd h
            (checkTransactionSanity_late_errors tx ma u9 hin0 hout0 hbig hsmall).2
    · intro ⟨hma, hfloor⟩
      have hbig : ¬ tx.serializeSize > MaxTransactionSize := by
        revert hfloor
        unfold MaxTransactionSize
        split_ifs with hu9 <;> omega
      unfold CheckTransactionSanity
      rw [if_neg hin0, if_neg hout0, if_neg hbig, if_pos]
      refine ⟨by simpa using hma, ?_⟩
      simpa [MinTransactionSize, MagneticAnomalyMinTransactionSize] using hfloor

/-- Witness for C7: a 64-byte transaction under Upgrade9 is rejected as
too small, through the general equivalence. -/
theorem checkTransactionSanity_size_bounds_witness :
    CheckTransactionSanity (txOfSize 64) false true = .error .ErrTxTooSmall :=
  (checkTransactionSanity_size_bounds.1 (txOfSize 64) false true
    (by decide) (by decide)).2.mpr ⟨Or.inr rfl, by decide⟩

/-! Claim C8: coinbase maturity in CheckTransactionInputs. -/

/-- A UTXO view with a single coinbase output of 50 coin created at
height 100, at outpoint (42, 0). -/
def c8View : UtxoView :=
  fun outpoint =>
    if outpoint = ⟨42, 0⟩ then some ⟨5000000000, 100, true, false⟩ else none

/-- A transaction with one input spending outpoint (42, 0) and one zero
output. -/
def c8Tx : Tx := ⟨⟨[⟨⟨42, 0⟩, [], 0⟩], [⟨0⟩], 0⟩, 31, 100⟩

/-- Claim C8: for a non-coinbase transaction with a single input whose
referenced UTXO is an existing, unspent coinbase output with in-range
amount and heights, CheckTransactionInputs fails with ImmatureSpend
exactly when the height difference is strictly below the maturity; with
the stated boundary instances at heights 199 and 200. -/
theorem checkTransactionInputs_maturity :
    (∀ (outpoint : OutPoint) (sigScript : List Nat) (seq : Nat) (outs : List TxOut)
        (lockTime txHash ssize : Nat) (txHeight coinbaseMaturity : Int)
        (utxo : UtxoEntry) (view : UtxoView),
      isNullOutpoint outpoint = false →
      view outpoint = some utxo →
      utxo.isSpent = false →
      utxo.isCoinBase = true →
      0 ≤ utxo.amount → utxo.amount ≤ MaxSatoshi →
      0 ≤ utxo.blockHeight → utxo.blockHeight ≤ txHeight → txHeight < 2147483648 →
      (CheckTransactionInputs ⟨⟨[⟨outpoint, sigScript, seq⟩], outs, lockTime⟩, txHash, ssize⟩
          txHeight view coinbaseMaturity = .error .ErrImmatureSpend
        ↔ txHeight - utxo.blockHeight < coinbaseMaturity))
    ∧ CheckTransactionInputs c8Tx 199 c8View 100 = .error .ErrImmatureSpend
    ∧ CheckTransactionInputs c8Tx 200 c8View 100 = .ok 5000000000 := by
  refine ⟨?_, rfl, rfl⟩
  intro outpoint sigScript seq outs lockTime txHash ssize txHeight coinbaseMaturity
    utxo view hnull hview hspent hcb ham0 ham1 hbh0 hbh1 hht
  have hnotCb : IsCoinBase ⟨⟨[⟨outpoint, sigScript, seq⟩], outs, lockTime⟩, txHash, ssize⟩ = false := by
    simp [IsCoinBase, IsCoinBaseTx, hnull]
  have hwrap : wrap32 (txHeight - utxo.blockHeight) = txHeight - utxo.blockHeight :=
    wrap32_eq_self _ (by omega) (by omega)
  unfold CheckTransactionInputs
  rw [hnotCb]
  simp only [Bool.false_eq_true, if_false]
  unfold checkInputsLoop
  simp only [hview]
  constructor
  · intro h
    by_contra hmat
    rw [if_neg (by simp [hspent]), if_neg (by rw [hwrap]; simp [hcb]; omega),
      if_neg (by omega), if_neg (by omega)] at h
    rw [if_neg (by rw [wrap64_eq_self (0 + utxo.amount) (by unfold MaxSatoshi SatoshiPerBitcoin at ham1; omega) (by unfold MaxSatoshi SatoshiPerBitcoin at ham1; omega)]; omega)] at h
    unfold checkInputsLoop at h
    dsimp only at h
    split_ifs at h
    · exact absurd (Except.error.inj h) (by decide)
  · intro hmat
    rw [if_neg (by simp [hspent]), if_pos ⟨hcb, by rw [hwrap]; exact hmat⟩]

/-- Witness for C8: the immature spend at height 199 through the general
equivalence. -/
theorem checkTransactionInputs_maturity_witness :
    CheckTransactionInputs ⟨⟨[⟨⟨42, 0⟩, [], 0⟩], [⟨0⟩], 0⟩, 31, 100⟩ 199 c8View 100 =
      .error .ErrImmatureSpend :=
  (checkTransactionInputs_maturity.1 ⟨42, 0⟩ [] 0 [⟨0⟩] 0 31 100 199 100
    ⟨5000000000, 100, true, false⟩ c8View rfl rfl rfl rfl (by decide) (by decide)
    (by decide) (by decide) (by decide)).mpr (by decide)

/-! Claim C2: CTOR ordering versus the duplicate transaction check in
checkBlockSanity. -/

/-- A well-formed coinbase transaction with txid 5. -/
def c2Coinbase : Tx := ⟨⟨[⟨⟨0, 4294967295⟩, [81, 81], 4294967295⟩], [⟨0⟩], 0⟩, 5, 100⟩

/-- A well-formed non-coinbase transaction with txid 10. -/
def c2TxA : Tx := ⟨⟨[⟨⟨1, 0⟩, [], 4294967295⟩], [⟨0⟩], 0⟩, 10, 100⟩

/-- A well-formed non-coinbase transaction with txid 20. -/
def c2TxB : Tx := ⟨⟨[⟨⟨2, 0⟩, [], 4294967295⟩], [⟨0⟩], 0⟩, 20, 100⟩

/-- Counterexample to claim C2 as stated: with MagneticAnomaly active, the
block with txids [cb, A, A] fails checkBlockSanity with InvalidTxOrder,
not DuplicateTx: the CTOR comparison at index 2 sees the equal previous
txid before the duplicate check runs. -/
theorem checkBlockSanity_dup_counterexample :
    checkBlockSanity (.ok ()) true [c2Coinbase, c2TxA, c2TxA] true false =
      .error .ErrInvalidTxOrder
    ∧ (RuleErrorCode.ErrInvalidTxOrder = RuleErrorCode.ErrDuplicateTx → False) :=
  ⟨rfl, by decide⟩

/-- Claim C2 as amended: with MagneticAnomaly active, [cb, A, A] fails
with InvalidTxOrder (equal adjacent txids violate the strict CTOR order,
which is checked before duplicates), [cb, B, A] with A below B fails with
InvalidTxOrder, and [cb, A, B] passes block sanity entirely. -/
theorem checkBlockSanity_ctor_spec :
    checkBlockSanity (.ok ()) true [c2Coinbase, c2TxA, c2TxA] true false =
      .error .ErrInvalidTxOrder
    ∧ checkBlockSanity (.ok ()) true [c2Coinbase, c2TxB, c2TxA] true false =
      .error .ErrInvalidTxOrder
    ∧ checkBlockSanity (.ok ()) true [c2Coinbase, c2TxA, c2TxB] true false = .ok () :=
  ⟨rfl, rfl, rfl⟩

/-! Claim C1: error propagation out of the Outputs-Then-Inputs connection
step under MagneticAnomaly. -/

/-- Chain parameters with every fork active from height 1 on and BIP34
never gating (height 0), so a connect run at height 1 reaches the
MagneticAnomaly Outputs-Then-Inputs step. -/
def c1Params : ChainParams :=
  { genesisHash := 999
    uahfForkHeight := 0
    daaForkHeight := 0
    magneticAnomalyForkHeight := 0
    greatWallForkHeight := 0
    gravitonForkHeight := 0
    phononForkHeight := 0
    upgrade9ForkHeight := 0
    cosmicInflationActivationTime := 0
    upgrade11ActivationTime := 0
    bip0034Height := 0
    bip0065Height := 0
    bip0066Height := 0
    bip16ActivationTime := 0
    subsidyReductionInterval := 210000
    coinbaseMaturity := 100 }

def c1State : BlockChainState :=
  { chainParams := c1Params, excessiveBlockSize := 32000000, ablaBlockSizeLimit := 32000000 }

def c1Node : BlockNode := ⟨1, 1, 0, 0⟩

/-- A coinbase paying more than the height-1 subsidy, so the subsidy check
would reject the block if it were reached. -/
def c1Coinbase : Tx := ⟨⟨[⟨⟨0, 4294967295⟩, [81, 81], 4294967295⟩], [⟨9000000000⟩], 0⟩, 5, 100⟩

def c1Block : Block := ⟨1, [c1Coinbase]⟩

def c1View : UtxoView := fun _ => none

/-- Externals whose Outputs-Then-Inputs connection step fails. -/
def c1Exts : ConnectExternals :=
  { addInputUtxos := fun view _ _ => .ok view
    connectTransaction := fun view _ _ => .ok view
    connectTransactions := fun _ _ => .error .ErrMissingTxOut
    latestCheckpoint := none
    csvThresholdActive := .ok false
    calcSequenceLock := fun _ _ => .ok ⟨0, 0⟩
    checkBlockScripts := fun _ _ _ => .ok () }

/-- Claim C1 is right about the intended behavior and the code violates
it: with MagneticAnomaly active, when connectTransactions fails,
checkConnectBlock returns success instead of the error (the source reads
return nil under the error guard).  The run below even skips the coinbase
subsidy check its block would fail. -/
theorem checkConnectBlock_swallows_oti_error :
    c1Node.height > c1Params.magneticAnomalyForkHeight
    ∧ c1Exts.connectTransactions c1View c1Block = .error .ErrMissingTxOut
    ∧ sumOutputs c1Coinbase.msgTx.txOut 0 >
        wrap64 (CalcBlockSubsidy c1Node.height c1Params + 0)
    ∧ checkConnectBlock c1State c1Exts c1View c1View c1Node c1Block = .ok () :=
  ⟨by decide, rfl, by decide, rfl⟩

/-! Claim C3: the sig-check budget passed to script verification. -/

/-- Chain parameters with the UAHF fork far in the future, so a height-10
connect run is in the pre-UAHF activation context. -/
def c3Params : ChainParams :=
  { genesisHash := 999
    uahfForkHeight := 1000
    daaForkHeight := 0
    magneticAnomalyForkHeight := 0
    greatWallForkHeight := 0
    gravitonForkHeight := 0
    phononForkHeight := 0
    upgrade9ForkHeight := 0
    cosmicInflationActivationTime := 0
    upgrade11ActivationTime := 0
    bip0034Height := 0
    bip0065Height := 0
    bip0066Height := 0
    bip16ActivationTime := 0
    subsidyReductionInterval := 210000
    coinbaseMaturity := 100 }

def c3State : BlockChainState :=
  { chainParams := c3Params, excessiveBlockSize := 8000000, ablaBlockSizeLimit := 32000000 }

def c3Node : BlockNode := ⟨10, 1, 0, 0⟩

def c3Coinbase : Tx := ⟨⟨[⟨⟨0, 4294967295⟩, [81, 81], 4294967295⟩], [⟨0⟩], 0⟩, 5, 100⟩

def c3Block : Block := ⟨1, [c3Coinbase]⟩

def c3View : UtxoView := fun _ => none

/-- Externals whose script oracle succeeds only when handed the budget the
spec claims for the pre-UAHF context, 1000000 / 141. -/
def c3ExtsSpecBudget : ConnectExternals :=
  { addInputUtxos := fun view _ _ => .ok view
    connectTransaction := fun view _ _ => .ok view
    connectTransactions := fun view _ => .ok view
    latestCheckpoint := none
    csvThresholdActive := .ok false
    calcSequenceLock := fun _ _ => .ok ⟨0, 0⟩
    checkBlockScripts := fun _ _ maxSigChecks =>
      if maxSigChecks = 7092 then .ok () else .error .ErrBadFees }

/-- Externals whose script oracle succeeds only when handed the budget the
code computes, the ABLA limit 32000000 / 141. -/
def c3ExtsCodeBudget : ConnectExternals :=
  { addInputUtxos := fun view _ _ => .ok view
    connectTransaction := fun view _ _ => .ok view
    connectTransactions := fun view _ => .ok view
    latestCheckpoint := none
    csvThresholdActive := .ok false
    calcSequenceLock := fun _ _ => .ok ⟨0, 0⟩
    checkBlockScripts := fun _ _ maxSigChecks =>
      if maxSigChecks = 226950 then .ok () else .error .ErrBadFees }

/-- Counterexample to claim C3 as stated: in a pre-UAHF context the
resolved max_block_size is LegacyMaxBlockSize, so the spec budget is
1000000 / 141 = 7092, but the orchestrator fails against an oracle that
accepts exactly that budget, because it always passes the ABLA controller
value divided by 141 (here 226950). -/
theorem connectMaxSigChecks_counterexample :
    (c3Node.height > c3Params.uahfForkHeight → False)
    ∧ specMaxSigChecks c3State false false = 7092
    ∧ connectMaxSigChecks c3State.ablaBlockSizeLimit = 226950
    ∧ checkConnectBlock c3State c3ExtsSpecBudget c3View c3View c3Node c3Block =
        .error .ErrBadFees :=
  ⟨by decide, by decide, by decide, rfl⟩

/-- Claim C3 as amended: the sig-check budget passed to script
verification is always the ABLA controller block size limit, truncated to
uint32, divided by 141 — in every activation context — and this coincides
with the resolved max_block_size divided by 141 exactly in the UAHF plus
ABLA case (with the limit in uint32 range). -/
theorem connectMaxSigChecks_spec :
    (∀ st : BlockChainState, st.ablaBlockSizeLimit < 4294967296 →
      connectMaxSigChecks st.ablaBlockSizeLimit = specMaxSigChecks st true true)
    ∧ checkConnectBlock c3State c3ExtsCodeBudget c3View c3View c3Node c3Block = .ok () := by
  constructor
  · intro st h
    simp [connectMaxSigChecks, specMaxSigChecks, MaxBlockSize, Nat.mod_eq_of_lt h]
  · rfl

/-- Witness for C3: the coincidence with the spec budget under UAHF plus
ABLA at the concrete chain state. -/
theorem connectMaxSigChecks_spec_witness :
    connectMaxSigChecks c3State.ablaBlockSizeLimit = specMaxSigChecks c3State true true :=
  connectMaxSigChecks_spec.1 c3State (by decide)

/-! Claim C9: the BIP30 overwrite-check gating in the orchestrator. -/

/-- Claim C9: checkConnectBlock runs the BIP30 overwrite check exactly
when the node is not one of the two grandfathered exceptions and its
height is below BIP0034Height: under the gate a failing overwrite check
aborts the orchestrator with its error, outside the gate (grandfathered
node or height at least BIP0034Height) the orchestrator proceeds straight
to the body, and the height-91842 node with the grandfathered hash always
falls outside the gate. -/
theorem checkConnectBlock_bip30_gating :
    (∀ (st : BlockChainState) (exts : ConnectExternals) (view cache : UtxoView)
        (node : BlockNode) (block : Block) (e : RuleErrorCode),
      ¬ node.hash = st.chainParams.genesisHash →
      isBIP0030Node node = false →
      node.height < st.chainParams.bip0034Height →
      checkBIP0030 view cache block.transactions = .error e →
      checkConnectBlock st exts view cache node block = .error e)
    ∧ (∀ (st : BlockChainState) (exts : ConnectExternals) (view cache : UtxoView)
        (node : BlockNode) (block : Block),
      ¬ node.hash = st.chainParams.genesisHash →
      (isBIP0030Node node = true ∨ st.chainParams.bip0034Height ≤ node.height) →
      checkConnectBlock st exts view cache node block = connectBody st exts view node block)
    ∧ (∀ timestamp parentMTP : Int,
      isBIP0030Node ⟨91842, block91842Hash, timestamp, parentMTP⟩ = true) := by
  refine ⟨?_, ?_, ?_⟩
  · intro st exts view cache node block e hgen h30 hlt hbip
    unfold checkConnectBlock
    rw [if_neg hgen, if_pos ⟨h30, hlt⟩, hbip]
  · intro st exts view cache node block hgen hdisj
    unfold checkConnectBlock
    rw [if_neg hgen, if_neg ?_]
    rintro ⟨h30f, hlt⟩
    rcases hdisj with h30t | hge
    · rw [h30t] at h30f
      exact absurd h30f (by decide)
    · exact absurd hlt (not_lt.mpr hge)
  · intro timestamp parentMTP
    unfold isBIP0030Node
    rw [if_pos ⟨rfl, rfl⟩]

/-- Chain parameters for the C9 witness, gating BIP30 below height 100. -/
def c9Params : ChainParams :=
  { genesisHash := 999
    uahfForkHeight := 0
    daaForkHeight := 0
    magneticAnomalyForkHeight := 0
    greatWallForkHeight := 0
    gravitonForkHeight := 0
    phononForkHeight := 0
    upgrade9ForkHeight := 0
    cosmicInflationActivationTime := 0
    upgrade11ActivationTime := 0
    bip0034Height := 100
    bip0065Height := 0
    bip0066Height := 0
    bip16ActivationTime := 0
    subsidyReductionInterval := 210000
    coinbaseMaturity := 100 }

def c9State : BlockChainState :=
  { chainParams := c9Params, excessiveBlockSize := 32000000, ablaBlockSizeLimit := 32000000 }

def c9Node : BlockNode := ⟨5, 1, 0, 0⟩

/-- A transaction whose txid collides with a still-unspent UTXO at output
index 0 of the view below. -/
def c9Tx : Tx := ⟨⟨[⟨⟨0, 4294967295⟩, [81, 81], 4294967295⟩], [⟨0⟩], 0⟩, 7, 100⟩

def c9Block : Block := ⟨1, [c9Tx]⟩

/-- A view holding an unspent entry at outpoint (7, 0), the position the
block would overwrite. -/
def c9View : UtxoView :=
  fun outpoint => if outpoint = ⟨7, 0⟩ then some ⟨0, 0, false, false⟩ else none

/-- All-passing externals for the C9 witness. -/
def c9Exts : ConnectExternals :=
  { addInputUtxos := fun view _ _ => .ok view
    connectTransaction := fun view _ _ => .ok view
    connectTransactions := fun view _ => .ok view
    latestCheckpoint := none
    csvThresholdActive := .ok false
    calcSequenceLock := fun _ _ => .ok ⟨0, 0⟩
    checkBlockScripts := fun _ _ _ => .ok () }

/-- Witness for C9: below BIP0034Height a failing overwrite check aborts
the orchestrator with OverwriteTx, and the height-91842 node is
grandfathered. -/
theorem checkConnectBlock_bip30_gating_witness :
    checkConnectBlock c9State c9Exts c9View c9View c9Node c9Block = .error .ErrOverwriteTx
    ∧ isBIP0030Node ⟨91842, block91842Hash, 0, 0⟩ = true :=
  ⟨checkConnectBlock_bip30_gating.1 c9State c9Exts c9View c9View c9Node c9Block
      .ErrOverwriteTx (by decide) rfl (by decide) rfl,
    checkConnectBlock_bip30_gating.2.2 0 0⟩

end Bchd
